import Mathlib

/-!
Shallow embedding of the musical-chairs simulation in `src/src/main.cpp`
(repository HtoFantini/musicalchairs).

The C++ program consists of:
- a global `counting_semaphore cadeira_sem` (permit counter for chairs),
  global atomics `musica_parada` and `jogo_ativo` (main.cpp lines 14-19);
- class `JogoDasCadeiras` (lines 43-98) with fields `num_jogadores`,
  `cadeiras`, `jogadores_restantes` and methods `iniciar_rodada`,
  `parar_musica`, `getJogadoresRestantes`, `eliminar_jogador`;
- class `Jogador` (lines 100-141) with fields `id`, `eliminado` and methods
  `tentar_ocupar_cadeira`, `verificar_eliminacao`, `joga`;
- class `Coordenador` (lines 143-176) with methods `iniciar_jogo` and
  `liberar_threads_eliminadas`.

We merge the globals and the `JogoDasCadeiras` fields into one state record
`GameSt`, and model each method as a pure function on `GameSt`. The C++
`int` fields become `Int`; the semaphore's permit count is a `Nat`
(it can never be negative). Console output is ignored. Locks serialize the
method bodies in C++, so each method is faithfully a single atomic state
transformation here.
-/

/-- Compile-time constant `NUM_JOGADORES = 4` (main.cpp line 14). -/
def NUM_JOGADORES : Int := 4

/-- The merged mutable state: the three fields of class `JogoDasCadeiras`
(main.cpp lines 94-96) together with the global semaphore counter
`cadeira_sem` and the global atomic flags `musica_parada` and `jogo_ativo`
(main.cpp lines 15-19). -/
structure GameSt where
  num_jogadores : Int
  cadeiras : Int
  jogadores_restantes : Int
  semPermits : Nat
  musica_parada : Bool
  jogo_ativo : Bool
  deriving Repr, DecidableEq

/-- `cadeira_sem.try_acquire()` : succeeds, decrementing the counter by one,
exactly when the counter is positive; otherwise fails leaving the counter
unchanged. Never blocks (it is a total function). Returns the success flag
and the new counter. -/
def tryAcquire (s : Nat) : Bool × Nat :=
  if s > 0 then (true, s - 1) else (false, s)

/-- The drain loop of `iniciar_rodada` (main.cpp lines 56-59):
`while (cadeira_sem.try_acquire()) ++esgotar;` — repeatedly try-acquires
until failure and returns the final counter value. Since `tryAcquire`
succeeds exactly on a positive counter, decrementing it, the loop is the
recursion below. -/
def drain : Nat → Nat
  | 0 => 0
  | n + 1 => drain n

/-- `drain` is the fixpoint of the try-acquire loop body. -/
theorem drain_eq_loop (s : Nat) :
    drain s = if (tryAcquire s).1 then drain (tryAcquire s).2 else s := by
  cases s <;> simp [drain, tryAcquire]

/-- `cadeira_sem.release(n)` : adds `n` permits to the counter
(main.cpp line 61 and line 171). -/
def release (s : Nat) (n : Nat) : Nat := s + n

/-- `JogoDasCadeiras::iniciar_rodada` (main.cpp lines 49-65): under the lock,
decrement `cadeiras` if it exceeds 1, drain the semaphore with the
try-acquire loop, release `cadeiras` fresh permits, and reset
`musica_parada` to false. -/
def iniciar_rodada (st : GameSt) : GameSt :=
  let cad := if st.cadeiras > 1 then st.cadeiras - 1 else st.cadeiras
  { st with
    cadeiras := cad
    semPermits := release (drain st.semPermits) cad.toNat
    musica_parada := false }

/-- `JogoDasCadeiras::parar_musica` (main.cpp lines 67-74): set the
music-stopped flag (the condition-variable broadcast has no effect on the
state itself). -/
def parar_musica (st : GameSt) : GameSt :=
  { st with musica_parada := true }

/-- `JogoDasCadeiras::getJogadoresRestantes` (main.cpp lines 76-79):
thread-safe snapshot read of `jogadores_restantes`. -/
def getJogadoresRestantes (st : GameSt) : Int :=
  st.jogadores_restantes

/-- `JogoDasCadeiras::eliminar_jogador` (main.cpp lines 81-85): under the
lock, decrement `jogadores_restantes` unconditionally. The `jogador_id`
argument is only printed. -/
def eliminar_jogador (st : GameSt) (jogador_id : Int) : GameSt :=
  { st with jogadores_restantes := st.jogadores_restantes - 1 }

/-- `Coordenador::liberar_threads_eliminadas` (main.cpp lines 169-172):
release `NUM_JOGADORES - 1` permits in bulk. -/
def liberar_threads_eliminadas (st : GameSt) : GameSt :=
  { st with semPermits := release st.semPermits (NUM_JOGADORES - 1).toNat }

/-- The initial state: the constructor `JogoDasCadeiras(num_jogadores)`
(main.cpp lines 45-47) sets `cadeiras = num_jogadores - 1` and
`jogadores_restantes = num_jogadores`; the global semaphore starts with
`NUM_JOGADORES - 1` permits and `main` passes `NUM_JOGADORES` to the
constructor (lines 15, 180), so the initial permit count is `n - 1` here;
`musica_parada` starts false and `jogo_ativo` true (lines 18-19). -/
def initGame (n : Int) : GameSt :=
  { num_jogadores := n
    cadeiras := n - 1
    jogadores_restantes := n
    semPermits := (n - 1).toNat
    musica_parada := false
    jogo_ativo := true }

/-- The concrete initial state of the program: `NUM_JOGADORES = 4`. -/
def initialState : GameSt := initGame 4

/-- The inline drain-then-fill operation of `iniciar_rodada`
(main.cpp lines 56-61), parameterized by the refill size: drain the
semaphore with the try-acquire loop, then release `newCount` permits.
This is the `ChairPool.resize_and_refill` contract of the spec as the
code implements it. -/
def resize_and_refill (s : Nat) (newCount : Nat) : Nat :=
  release (drain s) newCount

/-- Running `n` successive `try_acquire` calls from permit count `s`:
returns the number of successful calls and the final permit count.
Models a round's sequence of claim attempts by the players (the semaphore
linearizes concurrent `try_acquire` calls). -/
def runClaims : Nat → Nat → Nat × Nat
  | s, 0 => (0, s)
  | s, n + 1 =>
    let r := tryAcquire s
    let rest := runClaims r.2 n
    (if r.1 then rest.1 + 1 else rest.1, rest.2)

/-- The per-player state: fields `id` and `eliminado` of class `Jogador`
(main.cpp lines 138-139). -/
structure PlayerSt where
  id : Int
  eliminado : Bool
  deriving Repr, DecidableEq

/-- `Jogador::tentar_ocupar_cadeira` (main.cpp lines 105-111): one
non-blocking `try_acquire` on the chair semaphore; on failure the player
marks itself `eliminado`. Returns the updated player and game state. -/
def tentar_ocupar_cadeira (p : PlayerSt) (st : GameSt) : PlayerSt × GameSt :=
  let r := tryAcquire st.semPermits
  if r.1 then
    (p, { st with semPermits := r.2 })
  else
    ({ p with eliminado := true }, { st with semPermits := r.2 })

/-- `Jogador::verificar_eliminacao` (main.cpp lines 113-118): if the player
is marked `eliminado`, call `jogo.eliminar_jogador(id)` and set the global
`jogo_ativo` to false. Also returns the list of `eliminar_jogador` calls
made (the ids passed), to state how often and with which id the method
reports the elimination. -/
def verificar_eliminacao (p : PlayerSt) (st : GameSt) : GameSt × List Int :=
  if p.eliminado then
    ({ eliminar_jogador st p.id with jogo_ativo := false }, [p.id])
  else
    (st, [])

/-- The result of one iteration of the `Jogador::joga` loop: the updated
player, the updated shared state, the `eliminar_jogador` calls made, the
number of `try_acquire` claim attempts made, and whether the player's
thread left the loop (via the `while` guard failing, `break`, or
`return`). -/
structure JogaResult where
  p : PlayerSt
  st : GameSt
  elimCalls : List Int
  claimAttempts : Nat
  exited : Bool
  deriving Repr, DecidableEq

/-- One iteration of the `Jogador::joga` control loop (main.cpp lines
120-134), taken at the point where the condition-variable wait on line 123
has returned (which requires `musica_parada` or not `jogo_ativo`): check
the `while` guard and the post-wait guard on `jogo_ativo` (lines 121 and
126, exiting if false), return early when already `eliminado` (line 128),
otherwise race with `tentar_ocupar_cadeira` (line 130), report through
`verificar_eliminacao` (line 131), and `return` when eliminated
(line 133). -/
def joga_body (p : PlayerSt) (st : GameSt) : JogaResult :=
  if !st.jogo_ativo then
    ⟨p, st, [], 0, true⟩
  else if p.eliminado then
    ⟨p, st, [], 0, true⟩
  else
    let r1 := tentar_ocupar_cadeira p st
    let r2 := verificar_eliminacao r1.1 r1.2
    ⟨r1.1, r2.1, r2.2, 1, r1.1.eliminado⟩

/-- A player thread: the `Jogador` object together with whether its thread
of control has already left the `joga` loop (an exited thread runs no
further iterations). -/
structure PlayerThread where
  pl : PlayerSt
  exited : Bool
  deriving Repr, DecidableEq

/-- Run one `joga` iteration for each listed player thread in order,
skipping threads that have already exited, threading the shared state
through. This realizes the schedule in which, within a round, every
still-live player wakes after `parar_musica` and runs its loop body once,
one after the other (the semaphore and the lock linearize the concurrent
bodies, so some such sequential order always exists). -/
def runPlayers : List PlayerThread → GameSt → List PlayerThread × GameSt
  | [], st => ([], st)
  | t :: ts, st =>
    if t.exited then
      let rest := runPlayers ts st
      (t :: rest.1, rest.2)
    else
      let r := joga_body t.pl st
      let rest := runPlayers ts r.st
      ({ pl := r.p, exited := r.exited } :: rest.1, rest.2)

/-- One full round of the coordinator loop body `Coordenador::iniciar_jogo`
(main.cpp lines 149-163) under the schedule of `runPlayers`:
`iniciar_rodada`, the music delay (no state effect), `parar_musica`, the
grace window during which every live player runs one `joga` iteration,
then the deadlock-avoidance sweep `liberar_threads_eliminadas`. -/
def roundStep (sim : List PlayerThread × GameSt) : List PlayerThread × GameSt :=
  let st1 := iniciar_rodada sim.2
  let st2 := parar_musica st1
  let r := runPlayers sim.1 st2
  (r.1, liberar_threads_eliminadas r.2)

/-- The initial simulation state of `main` (main.cpp lines 179-195):
four player threads with ids 1..4, none eliminated, none exited, and the
initial shared state. -/
def startSim : List PlayerThread × GameSt :=
  ([⟨⟨1, false⟩, false⟩, ⟨⟨2, false⟩, false⟩,
    ⟨⟨3, false⟩, false⟩, ⟨⟨4, false⟩, false⟩], initialState)

/-- Count of player threads still inside their `joga` loops. -/
def livePlayers (ts : List PlayerThread) : Nat :=
  (ts.filter (fun t => !t.exited)).length

/-! ## Helper lemmas -/

/-- The drain loop always empties the semaphore. -/
theorem drain_zero (s : Nat) : drain s = 0 := by
  induction s with
  | zero => rfl
  | succ n ih => simpa [drain] using ih

/-- Successes plus leftover permits of a claim sequence equal the starting
permit count: each success takes exactly one permit and failures take
none. -/
theorem runClaims_sum (n s : Nat) :
    (runClaims s n).1 + (runClaims s n).2 = s := by
  induction n generalizing s with
  | zero => simp [runClaims]
  | succ n ih =>
    by_cases hs : s > 0
    · have h1 : tryAcquire s = (true, s - 1) := by simp [tryAcquire, hs]
      have h2 := ih (s - 1)
      simp [runClaims, h1]
      omega
    · have hs0 : s = 0 := by omega
      subst hs0
      have h2 := ih 0
      simp [runClaims, tryAcquire] at h2 ⊢
      omega

/-- Chair-count evolution under iterated rounds: starting from at least one
chair, after `r` calls of `iniciar_rodada` the chair count is the starting
count minus `r`, floored at 1. -/
theorem cadeiras_iterate (st : GameSt) (r : Nat) (h : 1 ≤ st.cadeiras) :
    ((iniciar_rodada)^[r] st).cadeiras = max (st.cadeiras - r) 1 := by
  induction r generalizing st with
  | zero => simp; omega
  | succ n ih =>
    rw [Function.iterate_succ_apply]
    have h2 : 1 ≤ (iniciar_rodada st).cadeiras := by
      simp only [iniciar_rodada]
      split <;> omega
    rw [ih (iniciar_rodada st) h2]
    simp only [iniciar_rodada]
    split <;> push_cast <;> omega

/-! ## Claim theorems -/

/-- Claim C1 (counterexample): the claim "the chair count of a round equals
playersRemaining − 1 (floored at 1); in particular the very first round of
an N-player game is played with N − 1 chairs" is false at the concrete
input N = 4: the first round's refill size (the chair count after
`iniciar_rodada`) is 2, while playersRemaining − 1 = 3 and N − 1 = 3. -/
theorem C1_chairs_claim_false :
    ¬ ((iniciar_rodada initialState).cadeiras =
        getJogadoresRestantes (iniciar_rodada initialState) - 1) ∧
    ¬ ((iniciar_rodada initialState).cadeiras = 4 - 1) := by
  constructor <;> decide

/-- Claim C1 (amended): the chair count of a round is independent of
playersRemaining. For a game created with `n ≥ 2` players, the chair count
after `r` calls of `iniciar_rodada` equals `max (n - 1 - r) 1` — it starts
at `n - 1` and is decremented once per round with a floor of 1, so the very
first round of an `n ≥ 3`-player game is played with `n - 2` chairs. -/
theorem C1_chairs_per_round (n : Int) (r : Nat) (hn : 2 ≤ n) :
    ((iniciar_rodada)^[r] (initGame n)).cadeiras = max (n - 1 - r) 1 := by
  have h1 : 1 ≤ (initGame n).cadeiras := by
    simp [initGame]; omega
  simpa [initGame] using cadeiras_iterate (initGame n) r h1

/-- Witness for C1_chairs_per_round at n = 4, r = 1: the first round of the
4-player game is played with 2 chairs. -/
theorem C1_chairs_per_round_witness :
    ((iniciar_rodada)^[1] (initGame 4)).cadeiras = max (4 - 1 - ((1 : Nat) : Int)) 1 :=
  C1_chairs_per_round 4 1 (by norm_num)

/-- Claim C2 (refutation, code bug): under the realizable schedule modelled
by `roundStep` (every live player wakes and runs one loop iteration per
round), the 4-player game never reaches `jogadores_restantes = 1`: after
every number of rounds the coordinator's loop guard
`getJogadoresRestantes() > 1` (main.cpp line 149) still holds, yet after
two rounds every player thread has left its `joga` loop, so no further
eliminations can ever occur — the coordinator loop (and hence the `join`
in `main`) runs forever instead of terminating with one player
remaining. -/
theorem C2_nontermination :
    (∀ n_rounds : Nat,
      1 < getJogadoresRestantes ((roundStep)^[n_rounds] startSim).2) ∧
    livePlayers ((roundStep)^[2] startSim).1 = 0 := by
  constructor
  · have hfix : roundStep ((roundStep)^[2] startSim) = (roundStep)^[2] startSim := by
      decide
    intro n_rounds
    match n_rounds with
    | 0 => decide
    | 1 => decide
    | k + 2 =>
      have h2 : (roundStep)^[k + 2] startSim =
          (roundStep)^[k] ((roundStep)^[2] startSim) := by
        rw [Function.iterate_add_apply]
      rw [h2, Function.iterate_fixed hfix k]
      decide
  · decide

/-- Claim C3: `try_acquire` returns false exactly when the permit count is
zero, a successful `try_acquire` decrements the permit count by exactly
one, and after a refill to `p` permits at most `p` of any sequence of
`n_attempts` claim attempts succeed before the next refill or bulk
release. (`tryAcquire` is a total function, so it never blocks.) -/
theorem C3_try_claim (s p n_attempts : Nat) :
    ((tryAcquire s).1 = false ↔ s = 0) ∧
    ((tryAcquire s).1 = true → (tryAcquire s).2 = s - 1) ∧
    (runClaims p n_attempts).1 ≤ p := by
  refine ⟨?_, ?_, ?_⟩
  · by_cases h : s > 0 <;> simp [tryAcquire, h] <;> omega
  · by_cases h : s > 0 <;> simp [tryAcquire, h]
  · have h := runClaims_sum n_attempts p
    omega

/-- Witness for C3_try_claim at s = 5, p = 2, n_attempts = 7. -/
theorem C3_try_claim_witness :
    ((tryAcquire 0).1 = false) ∧ (tryAcquire 5).2 = 5 - 1 ∧
    (runClaims 2 7).1 ≤ 2 :=
  ⟨(C3_try_claim 0 2 7).1.mpr rfl, (C3_try_claim 5 2 7).2.1 (by decide),
   (C3_try_claim 0 2 7).2.2⟩

/-- Claim C4: for every prior permit count — including leftovers deposited
by the `liberar_threads_eliminadas` sweep — the drain loop empties the
semaphore completely, and the drain-then-fill operation of
`iniciar_rodada` leaves the pool with exactly `newCount` permits. -/
theorem C4_drain_then_fill (s newCount : Nat) :
    drain s = 0 ∧ resize_and_refill s newCount = newCount := by
  refine ⟨drain_zero s, ?_⟩
  simp [resize_and_refill, release, drain_zero]

/-- Claim C5: a racing player (game active, not yet eliminated) whose
`try_acquire` fails because the permit count is zero calls
`eliminar_jogador` exactly once with its own id, sets the global
`jogo_ativo` flag to false, and exits its control loop permanently; and
any player already marked `eliminado` performs no further claim attempt
and exits (no ELIMINATED to RACING transition). -/
theorem C5_elimination (p : PlayerSt) (st : GameSt)
    (hactive : st.jogo_ativo = true) (helim : p.eliminado = false)
    (hperm : st.semPermits = 0) :
    (joga_body p st).elimCalls = [p.id] ∧
    (joga_body p st).st.jogo_ativo = false ∧
    (joga_body p st).exited = true ∧
    (joga_body p st).p.eliminado = true ∧
    (∀ (q : PlayerSt) (st2 : GameSt), q.eliminado = true →
      (joga_body q st2).claimAttempts = 0 ∧ (joga_body q st2).exited = true) := by
  refine ⟨?_, ?_, ?_, ?_, ?_⟩
  · simp [joga_body, hactive, helim, tentar_ocupar_cadeira, hperm, tryAcquire,
      verificar_eliminacao]
  · simp [joga_body, hactive, helim, tentar_ocupar_cadeira, hperm, tryAcquire,
      verificar_eliminacao]
  · simp [joga_body, hactive, helim, tentar_ocupar_cadeira, hperm, tryAcquire]
  · simp [joga_body, hactive, helim, tentar_ocupar_cadeira, hperm, tryAcquire]
  · intro q st2 hq
    by_cases h2 : st2.jogo_ativo <;> simp [joga_body, h2, hq]

/-- Witness for C5_elimination: player 3 with the game active and an empty
semaphore. -/
theorem C5_elimination_witness :
    (joga_body ⟨3, false⟩ { initialState with semPermits := 0 }).elimCalls =
      [(3 : Int)] ∧
    (joga_body ⟨3, false⟩ { initialState with semPermits := 0 }).st.jogo_ativo =
      false :=
  ⟨(C5_elimination ⟨3, false⟩ { initialState with semPermits := 0 }
      rfl rfl rfl).1,
   (C5_elimination ⟨3, false⟩ { initialState with semPermits := 0 }
      rfl rfl rfl).2.1⟩

/-- Claim C6: `iniciar_rodada` decrements the chair count by exactly one
when it exceeds 1 and leaves it unchanged otherwise, so a chair count that
is at least 1 stays at least 1; and the number of permits the round is
refilled with equals the resulting chair count. -/
theorem C6_begin_round (st : GameSt) :
    (st.cadeiras > 1 → (iniciar_rodada st).cadeiras = st.cadeiras - 1) ∧
    (¬ st.cadeiras > 1 → (iniciar_rodada st).cadeiras = st.cadeiras) ∧
    (1 ≤ st.cadeiras → 1 ≤ (iniciar_rodada st).cadeiras) ∧
    (iniciar_rodada st).semPermits = ((iniciar_rodada st).cadeiras).toNat := by
  refine ⟨?_, ?_, ?_, ?_⟩
  · intro h; simp [iniciar_rodada, h]
  · intro h; simp [iniciar_rodada, h]
  · intro h; simp only [iniciar_rodada]; split <;> omega
  · simp only [iniciar_rodada, release, drain_zero]; omega

/-- Witness for C6_begin_round at the initial 4-player state
(3 chairs, so the round decrements to 2 and refills 2 permits). -/
theorem C6_begin_round_witness :
    (iniciar_rodada initialState).cadeiras = initialState.cadeiras - 1 ∧
    1 ≤ (iniciar_rodada initialState).cadeiras :=
  ⟨(C6_begin_round initialState).1 (by decide),
   (C6_begin_round initialState).2.2.1 (by decide)⟩

/-- Claim C7: the drain-then-fill operation is idempotent — performing it
twice in a row with the same value `v` and no intervening claims leaves
the permit count equal to `v`, the same as performing it once. -/
theorem C7_refill_idempotent (s v : Nat) :
    resize_and_refill (resize_and_refill s v) v = resize_and_refill s v ∧
    resize_and_refill s v = v := by
  simp [resize_and_refill, release, drain_zero]

/-- Claim C8: `jogadores_restantes` is monotonically non-increasing — no
operation of `JogoDasCadeiras` or the coordinator increases it, and each
`eliminar_jogador` call strictly decreases it by exactly 1. -/
theorem C8_monotone (st : GameSt) (jogador_id : Int) :
    (eliminar_jogador st jogador_id).jogadores_restantes =
      st.jogadores_restantes - 1 ∧
    (iniciar_rodada st).jogadores_restantes = st.jogadores_restantes ∧
    (parar_musica st).jogadores_restantes = st.jogadores_restantes ∧
    (liberar_threads_eliminadas st).jogadores_restantes =
      st.jogadores_restantes := by
  exact ⟨rfl, rfl, rfl, rfl⟩

/-- Claim C9: `eliminar_jogador` decrements `jogadores_restantes`
unconditionally with no floor at zero — from any starting value `v` it
leaves `v - 1`; in particular 5 calls on the 4-player initial state drive
it to −1, below the data model's `playersRemaining ≥ 0` bound. -/
theorem C9_eliminate_no_floor (st : GameSt) (jogador_id : Int) :
    (eliminar_jogador st jogador_id).jogadores_restantes =
      st.jogadores_restantes - 1 ∧
    ((fun s => eliminar_jogador s 1)^[5] initialState).jogadores_restantes =
      -1 := by
  exact ⟨rfl, by decide⟩

/-- Claim C10: `iniciar_rodada` leaves `jogadores_restantes` unchanged, and
also `num_jogadores` and `jogo_ativo`; it modifies only the chair count,
the semaphore's permit count, and the music-stopped flag. -/
theorem C10_frame (st : GameSt) :
    (iniciar_rodada st).jogadores_restantes = st.jogadores_restantes ∧
    (iniciar_rodada st).num_jogadores = st.num_jogadores ∧
    (iniciar_rodada st).jogo_ativo = st.jogo_ativo := by
  exact ⟨rfl, rfl, rfl⟩
